import Mathlib

/-!
# `examples/example.go`

The source file declares `package main` and three functions, `process`,
`handleRequest` and `distributedSystem`.  Each has the signature `func()` and a
body that holds a line comment only; the block comments in front of them hold
diagram text.  Comments are not part of the abstract syntax of a Go file, so
each body is the empty statement list.

The development has two layers.

* The abstract syntax of a small fragment of Go (package-level functions,
  parameters, results, and the statements that can write output, change a
  package-level variable, call another function, panic, or return) together
  with an interpreter for it.  The interpreter can fail and can change the
  state, so the statements proved below about the three functions are
  statements about what their bodies do, not about the shape of the result type.
* The file itself, `exampleFile`, transcribed declaration by declaration.
-/

namespace Example

/-! ## Abstract syntax -/

/-- Types that may occur in a signature of the fragment. -/
inductive GoType where
  | int
  | string
  | bool
  | error
  deriving DecidableEq, Repr

/-- Run-time values of the fragment. -/
inductive Value where
  | int (n : Int)
  | str (s : String)
  | bool (b : Bool)
  | errVal (msg : String)
  deriving DecidableEq, Repr

/-- One entry of a parameter list: `name ty`. -/
structure Param where
  name : String
  ty : GoType
  deriving DecidableEq, Repr

/-- Expressions: a literal, a parameter of the enclosing function, or a
package-level variable. -/
inductive Expr where
  | lit (v : Value)
  | param (name : String)
  | global (name : String)
  deriving DecidableEq, Repr

/-- Statements of the fragment. -/
inductive Stmt where
  | print (e : Expr)
  | assign (target : String) (e : Expr)
  | call (callee : String) (args : List Expr)
  | panicWith (msg : String)
  | ret (vals : List Expr)
  deriving DecidableEq, Repr

/-- A function declaration `func name(params) results { body }`. -/
structure FuncDecl where
  name : String
  params : List Param
  results : List GoType
  body : List Stmt
  deriving DecidableEq, Repr

/-- A source file: the package clause, the package-level variables and the
function declarations, in source order. -/
structure SourceFile where
  pkgName : String
  vars : List (String × GoType)
  funcs : List FuncDecl
  deriving DecidableEq, Repr

/-! ## The file `examples/example.go` -/

/-- Source lines 11-13: `func process() { /* comment only */ }`. -/
def process : FuncDecl :=
  { name := "process", params := [], results := [], body := [] }

/-- Source lines 26-28: `func handleRequest() { /* comment only */ }`. -/
def handleRequest : FuncDecl :=
  { name := "handleRequest", params := [], results := [], body := [] }

/-- Source lines 46-48: `func distributedSystem() { /* comment only */ }`. -/
def distributedSystem : FuncDecl :=
  { name := "distributedSystem", params := [], results := [], body := [] }

/-- Source lines 1-48: `package main`, no package-level variable, and the three
function declarations in source order. -/
def exampleFile : SourceFile :=
  { pkgName := "main", vars := [], funcs := [process, handleRequest, distributedSystem] }

/-! ## Dynamic semantics -/

/-- Ways in which running a function can fail. -/
inductive GoError where
  | panicked (msg : String)
  | undefinedName (name : String)
  | arity (name : String)
  | outOfFuel
  deriving DecidableEq, Repr

/-- The program state: the values of the package-level variables. -/
abbrev Globals := List (String × Value)

/-- The values bound to the parameters of the running function. -/
abbrev Locals := List (String × Value)

/-- What a completed run hands back: the state it leaves, the values it wrote
to the output in order, the values it returned, and how many function calls
were made while it ran. -/
structure Result where
  state : Globals
  output : List Value
  returned : List Value
  calls : Nat
  deriving DecidableEq, Repr

/-- Overwrite (or create) the package-level variable `x`. -/
def setGlobal (x : String) (v : Value) (s : Globals) : Globals :=
  (x, v) :: s.filter (fun p => p.1 != x)

/-- Find the declaration of the function called `name`. -/
def lookupFunc (file : SourceFile) (name : String) : Option FuncDecl :=
  file.funcs.find? (fun d => d.name == name)

/-- Bind arguments to parameters, position by position. -/
def bindParams (ps : List Param) (args : List Value) : Locals :=
  (ps.map (fun p => p.name)).zip args

/-- Evaluate an expression. -/
def evalExpr (env : Locals) (s : Globals) : Expr → Except GoError Value
  | .lit v => .ok v
  | .param x =>
    match env.lookup x with
    | some v => .ok v
    | none => .error (.undefinedName x)
  | .global x =>
    match s.lookup x with
    | some v => .ok v
    | none => .error (.undefinedName x)

/-- Evaluate a list of expressions left to right. -/
def evalExprs (env : Locals) (s : Globals) : List Expr → Except GoError (List Value)
  | [] => .ok []
  | e :: es => do
    let v ← evalExpr env s e
    let vs ← evalExprs env s es
    .ok (v :: vs)

/-- Run a statement list.  `fuel` bounds the depth of nested calls: a call
statement needs one unit, and the callee runs with one unit less.  A statement
list without a call statement therefore runs with `fuel = 0`. -/
def execStmts (file : SourceFile) (fuel : Nat) (env : Locals) (stmts : List Stmt)
    (s : Globals) : Except GoError Result :=
  match stmts with
  | [] => .ok { state := s, output := [], returned := [], calls := 0 }
  | .print e :: rest => do
    let v ← evalExpr env s e
    let r ← execStmts file fuel env rest s
    .ok { r with output := v :: r.output }
  | .assign x e :: rest => do
    let v ← evalExpr env s e
    execStmts file fuel env rest (setGlobal x v s)
  | .panicWith msg :: _ => .error (.panicked msg)
  | .ret es :: _ => do
    let vs ← evalExprs env s es
    .ok { state := s, output := [], returned := vs, calls := 0 }
  | .call f es :: rest =>
    match fuel with
    | 0 => .error .outOfFuel
    | n + 1 => do
      let args ← evalExprs env s es
      match lookupFunc file f with
      | none => .error (.undefinedName f)
      | some d =>
        if args.length ≠ d.params.length then .error (.arity f)
        else do
          let r₁ ← execStmts file n (bindParams d.params args) d.body s
          let r₂ ← execStmts file (n + 1) env rest r₁.state
          .ok { state := r₂.state, output := r₁.output ++ r₂.output,
                returned := r₂.returned, calls := r₁.calls + 1 + r₂.calls }
termination_by (fuel, stmts.length)

/-- Call the function `name` of `file` from outside with the arguments `args`
in the state `s`. -/
def callFunc (file : SourceFile) (fuel : Nat) (name : String) (args : List Value)
    (s : Globals) : Except GoError Result :=
  match lookupFunc file name with
  | none => .error (.undefinedName name)
  | some d =>
    if args.length ≠ d.params.length then .error (.arity name)
    else execStmts file fuel (bindParams d.params args) d.body s

/-! ## Static semantics -/

/-- No name occurs twice. -/
def allDistinct : List String → Bool
  | [] => true
  | x :: xs => !xs.contains x && allDistinct xs

/-- The static type of an expression inside a function with parameters `ps`,
if it has one. -/
def typeOfExpr (file : SourceFile) (ps : List Param) : Expr → Option GoType
  | .lit (.int _) => some .int
  | .lit (.str _) => some .string
  | .lit (.bool _) => some .bool
  | .lit (.errVal _) => some .error
  | .param x => (ps.find? (fun p => p.name == x)).map (fun p => p.ty)
  | .global x => file.vars.lookup x

/-- A statement of the function `d` is well typed. -/
def stmtOk (file : SourceFile) (d : FuncDecl) : Stmt → Bool
  | .print e => (typeOfExpr file d.params e).isSome
  | .assign x e =>
    match file.vars.lookup x, typeOfExpr file d.params e with
    | some t, some u => t == u
    | _, _ => false
  | .call f es =>
    match lookupFunc file f with
    | none => false
    | some c => es.map (typeOfExpr file d.params) == c.params.map (fun p => some p.ty)
  | .panicWith _ => true
  | .ret es => es.map (typeOfExpr file d.params) == d.results.map some

/-- The statement list ends in a terminating statement (`return` or `panic`). -/
def endsInTerminating (body : List Stmt) : Bool :=
  match body.getLast? with
  | some (.ret _) => true
  | some (.panicWith _) => true
  | _ => false

/-- A function declaration is well formed: its parameter names are distinct,
its statements are well typed, and if it has results its body ends in a
terminating statement. -/
def funcOk (file : SourceFile) (d : FuncDecl) : Bool :=
  allDistinct (d.params.map (fun p => p.name)) &&
  d.body.all (stmtOk file d) &&
  (d.results.isEmpty || endsInTerminating d.body)

/-- The package type-checks: no package-level name is declared twice and every
function declaration is well formed. -/
def typeChecks (file : SourceFile) : Bool :=
  allDistinct (file.funcs.map (fun d => d.name) ++ file.vars.map (fun v => v.1)) &&
  file.funcs.all (funcOk file)

/-- The file declares `func main()`, without parameters and without results. -/
def declaresMain (file : SourceFile) : Bool :=
  file.funcs.any (fun d => d.name == "main" && d.params.isEmpty && d.results.isEmpty)

/-- The package builds.  Following the Go language specification (section
"Program execution"), the package named `main` must in addition declare a
function `main` that takes no arguments and returns no value; any other package
builds as soon as it type-checks. -/
def builds (file : SourceFile) : Bool :=
  typeChecks file && (file.pkgName != "main" || declaresMain file)

/-! ## Syntactic summaries of a body -/

/-- The names of the functions a statement list calls, in order. -/
def callees : List Stmt → List String
  | [] => []
  | .call f _ :: rest => f :: callees rest
  | _ :: rest => callees rest

/-- The statement list holds a `panic` statement. -/
def hasPanic : List Stmt → Bool
  | [] => false
  | .panicWith _ :: _ => true
  | _ :: rest => hasPanic rest

/-- The declaration can hand an error to its caller: by a `panic` statement in
its body or through a result of type `error`. -/
def mayRaise (d : FuncDecl) : Bool :=
  hasPanic d.body || d.results.contains GoType.error

/-! ## General facts about the interpreter -/

/-- The empty statement list returns at once and leaves everything as it was. -/
theorem execStmts_nil (file : SourceFile) (fuel : Nat) (env : Locals) (s : Globals) :
    execStmts file fuel env [] s
      = .ok { state := s, output := [], returned := [], calls := 0 } := by
  rw [execStmts]

/-- A `panic` statement at the head of a statement list makes the run fail. -/
theorem execStmts_panicWith (file : SourceFile) (fuel : Nat) (env : Locals) (msg : String)
    (rest : List Stmt) (s : Globals) :
    execStmts file fuel env (.panicWith msg :: rest) s = .error (.panicked msg) := by
  rw [execStmts]

/-- A call statement cannot run without fuel. -/
theorem execStmts_call_zero (file : SourceFile) (env : Locals) (f : String) (es : List Expr)
    (rest : List Stmt) (s : Globals) :
    execStmts file 0 env (.call f es :: rest) s = .error .outOfFuel := by
  rw [execStmts]

/-- An assignment followed by a print changes the state and writes output: the
interpreter does not treat every body as a no-op. -/
theorem execStmts_assign_print (file : SourceFile) (fuel : Nat) (env : Locals) :
    execStmts file fuel env
        [.assign "n" (.lit (.int 1)), .print (.global "n")] []
      = .ok { state := [("n", .int 1)], output := [.int 1], returned := [], calls := 0 } := by
  simp [execStmts, evalExpr, setGlobal, List.lookup, bind, Except.bind]

/-- A function that calls itself without end uses up any amount of fuel. -/
theorem execStmts_self_call (fuel : Nat) (s : Globals) :
    execStmts { pkgName := "main", vars := [], funcs := [⟨"loop", [], [], [.call "loop" []]⟩] }
        fuel [] [.call "loop" []] s
      = .error .outOfFuel := by
  induction fuel with
  | zero => rw [execStmts]
  | succ n ih =>
    rw [execStmts]
    simp [evalExprs, lookupFunc, bindParams, bind, Except.bind, ih]

/-- Calling a declared function that has no parameter and an empty body: the
empty argument list is the only one accepted, and the call then returns at
once, whatever the fuel. -/
theorem callFunc_stub (file : SourceFile) (fuel : Nat) (name : String) (d : FuncDecl)
    (args : List Value) (s : Globals) (hd : lookupFunc file name = some d)
    (hp : d.params = []) (hb : d.body = []) :
    callFunc file fuel name args s
      = if args = [] then .ok { state := s, output := [], returned := [], calls := 0 }
        else .error (.arity name) := by
  unfold callFunc
  rw [hd]
  cases args with
  | nil => simp [hp, hb, execStmts_nil]
  | cons a as => simp [hp]

/-! ## The three functions of `examples/example.go` -/

theorem lookupFunc_process : lookupFunc exampleFile "process" = some process := by
  decide

theorem lookupFunc_handleRequest :
    lookupFunc exampleFile "handleRequest" = some handleRequest := by
  decide

theorem lookupFunc_distributedSystem :
    lookupFunc exampleFile "distributedSystem" = some distributedSystem := by
  decide

theorem callFunc_process (fuel : Nat) (args : List Value) (s : Globals) :
    callFunc exampleFile fuel "process" args s
      = if args = [] then .ok { state := s, output := [], returned := [], calls := 0 }
        else .error (.arity "process") :=
  callFunc_stub exampleFile fuel "process" process args s lookupFunc_process rfl rfl

theorem callFunc_handleRequest (fuel : Nat) (args : List Value) (s : Globals) :
    callFunc exampleFile fuel "handleRequest" args s
      = if args = [] then .ok { state := s, output := [], returned := [], calls := 0 }
        else .error (.arity "handleRequest") :=
  callFunc_stub exampleFile fuel "handleRequest" handleRequest args s
    lookupFunc_handleRequest rfl rfl

theorem callFunc_distributedSystem (fuel : Nat) (args : List Value) (s : Globals) :
    callFunc exampleFile fuel "distributedSystem" args s
      = if args = [] then .ok { state := s, output := [], returned := [], calls := 0 }
        else .error (.arity "distributedSystem") :=
  callFunc_stub exampleFile fuel "distributedSystem" distributedSystem args s
    lookupFunc_distributedSystem rfl rfl

/-! ## The statements of the specification -/

/-- C1: each of `process`, `handleRequest` and `distributedSystem` does nothing
when called.  For every amount of fuel and every program state `s`, the call
returns, the state after the call is `s`, nothing was written to the output,
nothing was returned and no further call was made. -/
theorem stubs_do_nothing (fuel : Nat) (s : Globals) :
    callFunc exampleFile fuel "process" [] s
        = .ok { state := s, output := [], returned := [], calls := 0 } ∧
    callFunc exampleFile fuel "handleRequest" [] s
        = .ok { state := s, output := [], returned := [], calls := 0 } ∧
    callFunc exampleFile fuel "distributedSystem" [] s
        = .ok { state := s, output := [], returned := [], calls := 0 } := by
  refine ⟨?_, ?_, ?_⟩
  · rw [callFunc_process]; rfl
  · rw [callFunc_handleRequest]; rfl
  · rw [callFunc_distributedSystem]; rfl

/-- C2: no call to `process`, `handleRequest` or `distributedSystem` raises or
propagates an error.  None of the three declarations holds a `panic` statement
or has a result of type `error`, and for every amount of fuel and every state
the call ends in the success branch of `Except`, never in an error branch. -/
theorem stubs_never_fail (fuel : Nat) (s : Globals) :
    (mayRaise process = false ∧ mayRaise handleRequest = false ∧
      mayRaise distributedSystem = false) ∧
    (∃ r, callFunc exampleFile fuel "process" [] s = Except.ok r) ∧
    (∃ r, callFunc exampleFile fuel "handleRequest" [] s = Except.ok r) ∧
    (∃ r, callFunc exampleFile fuel "distributedSystem" [] s = Except.ok r) := by
  refine ⟨by decide, ⟨⟨s, [], [], 0⟩, ?_⟩, ⟨⟨s, [], [], 0⟩, ?_⟩, ⟨⟨s, [], [], 0⟩, ?_⟩⟩
  · rw [callFunc_process]; rfl
  · rw [callFunc_handleRequest]; rfl
  · rw [callFunc_distributedSystem]; rfl

/-- C3: the three functions are independent.  The body of each of `process`,
`handleRequest` and `distributedSystem` calls no function at all (so neither
itself nor one of the other two), and a call to any of them returns with fuel
`0`, that is with no nested call allowed, having made zero calls. -/
theorem stubs_call_nothing (s : Globals) :
    (callees process.body = [] ∧ callees handleRequest.body = [] ∧
      callees distributedSystem.body = []) ∧
    (callFunc exampleFile 0 "process" [] s).map (fun r => r.calls) = .ok 0 ∧
    (callFunc exampleFile 0 "handleRequest" [] s).map (fun r => r.calls) = .ok 0 ∧
    (callFunc exampleFile 0 "distributedSystem" [] s).map (fun r => r.calls) = .ok 0 := by
  refine ⟨by decide, ?_, ?_, ?_⟩
  · rw [callFunc_process]; rfl
  · rw [callFunc_handleRequest]; rfl
  · rw [callFunc_distributedSystem]; rfl

/-- C4: none of the three functions accepts a parameter or returns a value.
Each of `process`, `handleRequest` and `distributedSystem` has an empty
parameter list and an empty result list; the empty argument list is the only
one a call accepts, and the call then returns the empty list of values, so
what is returned depends on no caller-supplied input. -/
theorem stubs_have_signature_func (fuel : Nat) (args : List Value) (s : Globals) :
    (process.params = [] ∧ process.results = []) ∧
    (handleRequest.params = [] ∧ handleRequest.results = []) ∧
    (distributedSystem.params = [] ∧ distributedSystem.results = []) ∧
    (callFunc exampleFile fuel "process" args s).map (fun r => r.returned)
        = (if args = [] then .ok [] else .error (.arity "process")) ∧
    (callFunc exampleFile fuel "handleRequest" args s).map (fun r => r.returned)
        = (if args = [] then .ok [] else .error (.arity "handleRequest")) ∧
    (callFunc exampleFile fuel "distributedSystem" args s).map (fun r => r.returned)
        = (if args = [] then .ok [] else .error (.arity "distributedSystem")) := by
  refine ⟨⟨rfl, rfl⟩, ⟨rfl, rfl⟩, ⟨rfl, rfl⟩, ?_, ?_, ?_⟩
  · rw [callFunc_process]; split <;> rfl
  · rw [callFunc_handleRequest]; split <;> rfl
  · rw [callFunc_distributedSystem]; split <;> rfl

/-- C5, as stated, fails: the file declares `package main` but no function
`main`, so it is not a complete program and does not build. -/
theorem exampleFile_does_not_build : builds exampleFile = false := by
  decide

/-- C5, amended: the file declares `package main` with exactly the three
functions `process`, `handleRequest` and `distributedSystem`, in this order, and
no package-level variable; it type-checks as a package; it declares no function
`main`. -/
theorem exampleFile_typeChecks_without_main :
    exampleFile.pkgName = "main" ∧
    exampleFile.vars = [] ∧
    exampleFile.funcs.map (fun d => d.name)
      = ["process", "handleRequest", "distributedSystem"] ∧
    typeChecks exampleFile = true ∧
    declaresMain exampleFile = false := by
  decide

end Example
